import Mathlib

/-!
Shallow embedding of the Theoriq-API server (src/server.js,
src/database/database.js, src/services/scheduler.js) and proofs about its
specified behaviour.

Conventions of the embedding:
* JavaScript field values that may be numbers, strings or absent are modelled
  by the inductive `JVal`; `NaN` results of `parseInt` / `parseFloat` are
  modelled as `none : Option _`.
* Wall-clock instants used by the fetch cache are naturals counting
  milliseconds; instants used by the scheduler are naturals counting minutes
  since a Sunday 00:00 epoch (moment.js weeks start on Sunday).
* `collection_date` strings of the form YYYY-MM-DD compare lexicographically
  exactly as chronologically, so dates are encoded as naturals preserving
  that order; `created_at` (SQLite `CURRENT_TIMESTAMP` plus insertion order)
  is encoded as a strictly increasing write-sequence number.
* Fallible operations return `Except String _`; promise callbacks that can
  never run (so the promise neither resolves nor rejects) are modelled by a
  dedicated outcome constructor.
* Injected storage faults (an SQLite `run` callback receiving an error) are
  modelled by explicit fault scripts (`headerFails : Bool`,
  `entryFails : Nat → Bool`) passed to the embedded `saveSnapshot`.
-/

namespace TheoriqSpec

/-- A JavaScript value appearing in a numeric field of the upstream payload:
a number (modelled as a rational, covering both integers and floats), a
string, or `undefined` (absent property). -/
inductive JVal where
  | jnum : ℚ → JVal
  | jstr : String → JVal
  | jundef : JVal
deriving DecidableEq

/-- Value of a maximal leading run of decimal digits; `none` when the run is
empty.  Used to embed the digit-consuming core of JS `parseInt`. -/
def digitsVal (cs : List Char) : Option Nat :=
  let ds := cs.takeWhile (·.isDigit)
  if ds.isEmpty then none
  else some (ds.foldl (fun a c => a * 10 + (c.toNat - 48)) 0)

/-- JS `parseInt` on a string: skip leading spaces, optional sign, then a
numeric prefix; `none` models `NaN`. -/
def parseIntString (s : String) : Option Int :=
  let cs := s.data.dropWhile (· = ' ')
  match cs with
  | '-' :: rest => (digitsVal rest).map (fun n => -(n : Int))
  | '+' :: rest => (digitsVal rest).map (fun n => (n : Int))
  | _ => (digitsVal cs).map (fun n => (n : Int))

/-- Fractional value of a digit run (digits after the decimal point). -/
def fracVal (cs : List Char) : ℚ :=
  (cs.takeWhile (·.isDigit)).foldr (fun c acc => (((c.toNat - 48 : ℕ) : ℚ) + acc) / 10) 0

/-- JS `parseFloat` on a string: optional sign, integer digits, optional
fractional digits; `none` models `NaN`. -/
def parseFloatString (s : String) : Option ℚ :=
  let cs := s.data.dropWhile (· = ' ')
  let core : List Char → Option ℚ := fun cs =>
    let intDs := cs.takeWhile (·.isDigit)
    let rest := cs.dropWhile (·.isDigit)
    let fracDs := match rest with
      | '.' :: r => r.takeWhile (·.isDigit)
      | _ => []
    if intDs.isEmpty ∧ fracDs.isEmpty then none
    else some (((intDs.foldl (fun a c => a * 10 + (c.toNat - 48)) 0 : ℕ) : ℚ) + fracVal fracDs)
  match cs with
  | '-' :: rest => (core rest).map (fun q => -q)
  | '+' :: rest => core rest
  | _ => core cs

/-- Truncation toward zero, the effect of JS `parseInt` on a number. -/
def ratTrunc (q : ℚ) : Int :=
  if q < 0 then ⌈q⌉ else ⌊q⌋

/-- JS `parseInt` on an arbitrary value (`none` models `NaN`). -/
def parseIntJS : JVal → Option Int
  | .jnum q => some (ratTrunc q)
  | .jstr s => parseIntString s
  | .jundef => none

/-- JS `parseFloat` on an arbitrary value (`none` models `NaN`). -/
def parseFloatJS : JVal → Option ℚ
  | .jnum q => some q
  | .jstr s => parseFloatString s
  | .jundef => none

/-- One raw ranked participant of the upstream payload
(`community_mindshare.top_250_yappers[i]`). -/
structure RawYapper where
  rank : JVal
  username : String
  mindshare : JVal
  tweet_counts : JVal
  total_impressions : JVal
  total_likes : JVal
deriving DecidableEq

/-- The `community_mindshare` object of the upstream payload; the ranked list
may be absent (`top_250_yappers = none`). -/
structure CommunityMindshare where
  total_unique_yappers : JVal
  total_unique_tweets : JVal
  top_250_yapper_impressions : JVal
  top_250_yapper_likes : JVal
  top_250_yappers : Option (List RawYapper)
deriving DecidableEq

/-- The raw upstream API response; `community_mindshare = none` models a
payload on which property access throws a `TypeError`. -/
structure ApiResponse where
  community_mindshare : Option CommunityMindshare
deriving DecidableEq

/-- Summary metrics exactly as `extractMetrics` (src/server.js:194-202)
returns them: the raw field values, passed through without validation. -/
structure Metrics where
  totalYappers : JVal
  totalTweets : JVal
  topImpressions : JVal
  topLikes : JVal
deriving DecidableEq

/-- One extracted ranked participant, the result of the mapping in
`extractYappers` (src/server.js:204-215); `none` fields model `NaN`. -/
structure Yapper where
  rank : Option Int
  username : String
  mindshare : Option ℚ
  tweets : Option Int
  impressions : Option Int
  likes : Option Int
  twitterUrl : String
deriving DecidableEq

/-- The per-participant mapping of `extractYappers`. -/
def convYapper (y : RawYapper) : Yapper :=
  { rank := parseIntJS y.rank
    username := y.username
    mindshare := parseFloatJS y.mindshare
    tweets := parseIntJS y.tweet_counts
    impressions := parseIntJS y.total_impressions
    likes := parseIntJS y.total_likes
    twitterUrl := "https://twitter.com/" ++ y.username }

/-- `TheoriqAPI.extractMetrics` (src/server.js:194-202): reads
`apiResponse.community_mindshare` (a `TypeError` when absent) and returns the
four counter fields unchanged. -/
def extractMetrics (apiResponse : ApiResponse) : Except String Metrics :=
  match apiResponse.community_mindshare with
  | none => .error "TypeError: Cannot read properties of undefined"
  | some d => .ok
      { totalYappers := d.total_unique_yappers
        totalTweets := d.total_unique_tweets
        topImpressions := d.top_250_yapper_impressions
        topLikes := d.top_250_yapper_likes }

/-- `TheoriqAPI.extractYappers` (src/server.js:204-215):
`(top_250_yappers || []).slice(offset, offset + limit).map(...)`. -/
def extractYappers (apiResponse : ApiResponse) (limit offset : Nat) :
    Except String (List Yapper) :=
  match apiResponse.community_mindshare with
  | none => .error "TypeError: Cannot read properties of undefined"
  | some d => .ok ((((d.top_250_yappers.getD []).drop offset).take limit).map convYapper)

/-- The `{ data, isLive }` object produced by `TheoriqAPI.getData`. -/
structure FetchResult where
  data : ApiResponse
  isLive : Bool
deriving DecidableEq

/-- One entry of the ephemeral in-memory cache (`this.cache[key]`). -/
structure CacheItem where
  data : FetchResult
  timestamp : Nat
deriving DecidableEq

/-- The ephemeral cache `this.cache`, an object keyed by `data_<window>`. -/
abbrev Cache := List (String × CacheItem)

/-- `this.cacheTTL = 5 * 60 * 1000` milliseconds (src/server.js:132). -/
def cacheTTL : Nat := 5 * 60 * 1000

/-- Property lookup `this.cache[key]`. -/
def cacheLookup (c : Cache) (key : String) : Option CacheItem :=
  (c.find? (fun kv => decide (kv.1 = key))).map Prod.snd

/-- `TheoriqAPI.checkCache` (src/server.js:175-181): a stored item younger
than the TTL is returned, otherwise `null`. -/
def checkCache (c : Cache) (now : Nat) (key : String) : Option FetchResult :=
  match cacheLookup c key with
  | some item => if now - item.timestamp < cacheTTL then some item.data else none
  | none => none

/-- `TheoriqAPI.setCache` (src/server.js:183-188). -/
def setCache (c : Cache) (now : Nat) (key : String) (data : FetchResult) : Cache :=
  (key, { data := data, timestamp := now }) :: c.filter (fun kv => decide (kv.1 ≠ key))

/-- `TheoriqAPI.clearCache` (src/server.js:190-192): `this.cache = {}`. -/
def clearCache (_ : Cache) : Cache := []

/-- Outcome of one network attempt against the direct upstream source. -/
inductive FetchOutcome where
  | ok (body : ApiResponse)
  | httpError (status : Nat)
  | timeout
  | transportError (msg : String)
deriving DecidableEq

/-- Result of `TheoriqAPI.getData`: the settled value of the promise, the
cache state afterwards, and how many network fetches were issued. -/
structure GetDataResult where
  result : Except String FetchResult
  cache' : Cache
  fetchCount : Nat

/-- `API_CONFIG.proxyUrls` (src/server.js:118-122): fallback sources present
in the configuration. -/
def proxyUrls : List String :=
  ["https://theoriq-proxy.vercel.app/api/theoriq",
   "https://api.allorigins.win/get?url=",
   "https://corsproxy.io/?"]

/-- `TheoriqAPI.getData` (src/server.js:135-173): consult the cache; on a
miss issue one fetch against the direct URL; on success mark live, cache and
return; on any failure (non-2xx, timeout, transport error) throw
`All API endpoints failed`.  No fallback source is ever contacted: the
function body contains a single `fetch`, and `API_CONFIG.proxyUrls` is
unused. -/
def getData (window : String) (c : Cache) (now : Nat) (primary : FetchOutcome) :
    GetDataResult :=
  let cacheKey := "data_" ++ window
  match checkCache c now cacheKey with
  | some cached => { result := .ok cached, cache' := c, fetchCount := 0 }
  | none =>
    match primary with
    | .ok body =>
        let r : FetchResult := { data := body, isLive := true }
        { result := .ok r, cache' := setCache c now cacheKey r, fetchCount := 1 }
    | _ => { result := .error "All API endpoints failed", cache' := c, fetchCount := 1 }

/-- One row of the `weekly_snapshots` table (src/database/database.js:28-41).
`created_at` is the write-sequence number standing for the SQLite
`CURRENT_TIMESTAMP` / insertion order. -/
structure SnapshotRow where
  snapshot_id : String
  collection_date : Nat
  window_period : String
  is_live : Bool
  metrics : Metrics
  created_at : Nat
deriving DecidableEq

/-- One row of the `yappers_history` table (src/database/database.js:44-58). -/
structure YapperRow where
  snapshot_id : String
  entry : Yapper
  rowid : Nat
deriving DecidableEq

/-- The visible (committed) contents of the SQLite store. -/
structure DBState where
  snapshots : List SnapshotRow
  yappers : List YapperRow
  nextSeq : Nat
deriving DecidableEq

/-- Outcome of `saveSnapshot`: the promise rejects after a rollback, resolves
after a commit, or never settles (`hung`) when the commit callback can never
run.  `committed` carries the resolved object's `snapshotId`,
`collectionDate`, `yapperCount` and the new visible store. -/
inductive SaveOutcome where
  | rolledBack (err : String)
  | committed (sid : String) (date : Nat) (yapperCount : Nat) (st : DBState)
  | hung (visible : DBState)
deriving DecidableEq

/-- `TheoriqDatabase.saveSnapshot` (src/database/database.js:91-182).
Faithful control flow of the callback chain:
* the header insert failing runs `ROLLBACK` and rejects — nothing visible;
* each entry insert error is only logged (`console.error`), yet
  `processedYappers` is still incremented, and once `processedYappers`
  reaches `yappers.length` the transaction is **committed**, so the header
  together with every entry row that did not fail becomes visible, and the
  promise resolves reporting `yapperCount = yappers.length`;
* with an empty entry list the commit callback never runs and the promise
  never settles (`hung`).
`sid` is the freshly generated UUID, `date` the collection date,
`headerFails` / `entryFails` the injected storage faults. -/
def saveSnapshot (db : DBState) (metrics : Metrics) (yappers : List Yapper)
    (windowPeriod : String) (isLive : Bool) (sid : String) (date : Nat)
    (headerFails : Bool) (entryFails : Nat → Bool) : SaveOutcome :=
  if headerFails then
    .rolledBack "SQLITE_ERROR: snapshot insert failed"
  else if yappers.isEmpty then
    .hung db
  else
    let headerRow : SnapshotRow :=
      { snapshot_id := sid, collection_date := date, window_period := windowPeriod
        is_live := isLive, metrics := metrics, created_at := db.nextSeq }
    let kept := ((List.range yappers.length).zip yappers).filter
      (fun p => !(entryFails p.1))
    let rows := kept.enum.map
      (fun p => YapperRow.mk sid p.2.2 (db.nextSeq + 1 + p.1))
    .committed sid date yappers.length
      { snapshots := db.snapshots ++ [headerRow]
        yappers := db.yappers ++ rows
        nextSeq := db.nextSeq + 1 + rows.length }

/-- The rows of `weekly_snapshots` matching `WHERE window_period = ?`. -/
def windowSnapshots (db : DBState) (windowPeriod : String) : List SnapshotRow :=
  db.snapshots.filter (fun r => decide (r.window_period = windowPeriod))

/-- First row of `ORDER BY created_at DESC LIMIT 1`. -/
def maxByCreated (r : SnapshotRow) (rs : List SnapshotRow) : SnapshotRow :=
  rs.foldl (fun best x => if best.created_at < x.created_at then x else best) r

/-- `TheoriqDatabase.getLatestSnapshot` (src/database/database.js:185-216):
`SELECT * FROM weekly_snapshots WHERE window_period = ? ORDER BY created_at
DESC LIMIT 1`; resolves `null` (here `none`) when no row matches. -/
def getLatestSnapshot (db : DBState) (windowPeriod : String) : Option SnapshotRow :=
  match windowSnapshots db windowPeriod with
  | [] => none
  | r :: rs => some (maxByCreated r rs)

/-- The ordering the specification states for `latest`: collection date
first, write order second.  Stated from the spec's words for comparison with
the source's `getLatestSnapshot`. -/
def specLatestSnapshot (db : DBState) (windowPeriod : String) : Option SnapshotRow :=
  match windowSnapshots db windowPeriod with
  | [] => none
  | r :: rs => some (rs.foldl
      (fun best x =>
        if best.collection_date < x.collection_date ∨
           (best.collection_date = x.collection_date ∧ best.created_at < x.created_at)
        then x else best) r)

/-- `ORDER BY rank ASC` comparison; SQLite sorts `NULL` (a `NaN` bound) first. -/
def rankLe (a b : YapperRow) : Bool :=
  match a.entry.rank, b.entry.rank with
  | none, _ => true
  | some _, none => false
  | some i, some j => decide (i ≤ j)

/-- Insertion step of a stable sort by `rankLe`. -/
def insertByRank (x : YapperRow) : List YapperRow → List YapperRow
  | [] => [x]
  | y :: ys => if rankLe x y then x :: y :: ys else y :: insertByRank x ys

/-- Stable sort by ascending rank. -/
def sortByRank (l : List YapperRow) : List YapperRow :=
  l.foldr insertByRank []

/-- `TheoriqDatabase.getYappersForSnapshot` (src/database/database.js:219-236):
`WHERE snapshot_id = ? ORDER BY rank ASC LIMIT ? OFFSET ?`. -/
def getYappersForSnapshot (db : DBState) (sid : String) (limit offset : Nat) :
    List YapperRow :=
  ((sortByRank (db.yappers.filter (fun r => decide (r.snapshot_id = sid)))).drop offset).take limit

/-- `TheoriqDatabase.getYapperCountForSnapshot` (src/database/database.js:239-268):
`SELECT COUNT(*) FROM yappers_history WHERE snapshot_id = ?`. -/
def getYapperCountForSnapshot (db : DBState) (sid : String) : Nat :=
  (db.yappers.filter (fun r => decide (r.snapshot_id = sid))).length

/-- `TheoriqDatabase.getCompleteSnapshot` (src/database/database.js:345-393):
the header row plus a page of entries; `none` when the header is absent. -/
def getCompleteSnapshot (db : DBState) (sid : String) (limit offset : Nat) :
    Option (SnapshotRow × List YapperRow) :=
  match db.snapshots.find? (fun r => decide (r.snapshot_id = sid)) with
  | none => none
  | some s => some (s, getYappersForSnapshot db sid limit offset)

/-- `TheoriqDatabase.cleanOldSnapshots` (src/database/database.js:421-482).
`cutoff` is the precomputed `now − weeksToKeep` date.  Rows are selected by
`collection_date < cutoff`; with no matching snapshot the promise resolves
`(0, 0)` at once; otherwise entry rows whose `snapshot_id` belongs to a
matching snapshot are deleted first, then the matching snapshot headers. -/
def cleanOldSnapshots (db : DBState) (cutoff : Nat) : DBState × Nat × Nat :=
  let olds := db.snapshots.filter (fun r => decide (r.collection_date < cutoff))
  if olds.isEmpty then (db, 0, 0)
  else
    let ids := olds.map (·.snapshot_id)
    let keptY := db.yappers.filter (fun r => !(ids.contains r.snapshot_id))
    let keptS := db.snapshots.filter (fun r => !(decide (r.collection_date < cutoff)))
    (⟨keptS, keptY, db.nextSeq⟩,
     db.snapshots.length - keptS.length,
     db.yappers.length - keptY.length)

/-- Minutes in a day; scheduler instants are minutes since Sunday 00:00. -/
def minutesPerDay : Nat := 1440

/-- Minutes in a week (moment.js weeks start on Sunday, `day() = 0`). -/
def minutesPerWeek : Nat := 10080

/-- `SchedulerService.getScheduleInfo` (src/services/scheduler.js:110-130):
`nextWeeklyCollection` is `moment().day(3).hour(10).minute(0).second(0)`,
pushed one week later when not after `now`; `nextCleanup` is
`moment().add(1, 'day').hour(2).minute(0).second(0)`, pushed one day later
when not after `now` (which can never happen).  Returned as
`(nextWeeklyCollection, nextCleanup)` in minutes. -/
def getScheduleInfo (now : Nat) : Nat × Nat :=
  let weekStart := now / minutesPerWeek * minutesPerWeek
  let w0 := weekStart + 3 * minutesPerDay + 10 * 60
  let nextWeekly := if w0 ≤ now then w0 + minutesPerWeek else w0
  let tomorrow := now + minutesPerDay
  let c0 := tomorrow / minutesPerDay * minutesPerDay + 2 * 60
  let nextCleanup := if c0 ≤ now then c0 + minutesPerDay else c0
  (nextWeekly, nextCleanup)

/-- The cron expression `0 2 * * *` of `scheduleDailyCleanup`
(src/services/scheduler.js:29): the cleanup trigger fires at every instant
whose time of day is 02:00. -/
def cronCleanupMatches (u : Nat) : Bool :=
  decide (u % minutesPerDay = 2 * 60)

/-- The cron expression `0 10 * * 3` of `scheduleWeeklyCollection`
(src/services/scheduler.js:15): the collection trigger fires at every
Wednesday 10:00. -/
def cronWeeklyMatches (u : Nat) : Bool :=
  decide (u % minutesPerWeek = 3 * minutesPerDay + 10 * 60)

/-- The earliest instant strictly after `now` at which the daily cleanup
cron fires, computed from the calendar rule the claim states. -/
def claimNextCleanup (now : Nat) : Nat :=
  if now % minutesPerDay < 2 * 60 then now - now % minutesPerDay + 2 * 60
  else now - now % minutesPerDay + minutesPerDay + 2 * 60

/-- The earliest instant strictly after `now` at which the weekly collection
cron fires, computed from the calendar rule the claim states. -/
def claimNextWeekly (now : Nat) : Nat :=
  if now % minutesPerWeek < 3 * minutesPerDay + 10 * 60 then
    now - now % minutesPerWeek + 3 * minutesPerDay + 10 * 60
  else now - now % minutesPerWeek + minutesPerWeek + 3 * minutesPerDay + 10 * 60

/-- Settled value of the `runWeeklyCollection` promise. -/
inductive RunOutcome where
  | success (sid : String) (date : Nat) (yapperCount : Nat) (timestamp : Nat)
  | failure (error : String) (timestamp : Nat)
  | pending
deriving DecidableEq

/-- `SchedulerService.runWeeklyCollection` (src/services/scheduler.js:42-73):
`getData('7d')`, `extractMetrics`, `extractYappers(data, 250)`, then
`saveSnapshot(metrics, yappers, '7d', isLive)`; any rejection or throw is
caught and turned into `{ success: false, error, timestamp }`.  Returns the
outcome, the visible store afterwards, and the cache afterwards. -/
def runWeeklyCollection (c : Cache) (now : Nat) (primary : FetchOutcome)
    (db : DBState) (sid : String) (date : Nat)
    (headerFails : Bool) (entryFails : Nat → Bool) :
    RunOutcome × DBState × Cache :=
  let g := getData "7d" c now primary
  match g.result with
  | .error e => (.failure e now, db, g.cache')
  | .ok r =>
    match extractMetrics r.data with
    | .error e => (.failure e now, db, g.cache')
    | .ok metrics =>
      match extractYappers r.data 250 0 with
      | .error e => (.failure e now, db, g.cache')
      | .ok yappers =>
        match saveSnapshot db metrics yappers "7d" r.isLive sid date headerFails entryFails with
        | .rolledBack e => (.failure e now, db, g.cache')
        | .hung _ => (.pending, db, g.cache')
        | .committed s d cnt st => (.success s d cnt now, st, g.cache')

/-- JS truthiness of an optional query-string value: absent and the empty
string are falsy, every other string truthy. -/
def truthy : Option String → Bool
  | none => false
  | some s => !(s == "")

/-- The supported window selectors (src/server.js:54). -/
def validWindows : List String := ["7d", "30d", "3m", "6m", "12m"]

/-- The query values `validateParams` leaves behind for the route handler:
the capped numeric `limit` (when one was supplied) and the numeric offset. -/
structure ValidatedQuery where
  limit : Option Int
  offset : Int
deriving DecidableEq

/-- `validateParams` (src/server.js:53-91): reject an unsupported window;
reject a truthy `limit` that parses to `NaN` or a non-positive number, else
cap it at 250; reject a truthy `offset` that parses to `NaN` or a negative
number; a missing (or falsy) `offset` defaults to 0. -/
def validateParams (window limit offset : Option String) :
    Except String ValidatedQuery :=
  if truthy window ∧ (window.getD "") ∉ validWindows then
    .error "Periodo invalido"
  else
    let limitRes : Except String (Option Int) :=
      if truthy limit then
        match parseIntString (limit.getD "") with
        | none => .error "Valor de limite invalido"
        | some l => if l ≤ 0 then .error "Valor de limite invalido" else .ok (some (min l 250))
      else .ok none
    match limitRes with
    | .error e => .error e
    | .ok l =>
      if truthy offset then
        match parseIntString (offset.getD "") with
        | none => .error "Valor de offset invalido"
        | some o => if o < 0 then .error "Valor de offset invalido" else .ok ⟨l, o⟩
      else .ok ⟨l, 0⟩

/-! Concrete data used by the evaluations below. -/

/-- A well-formed raw ranked participant. -/
def exRaw1 : RawYapper :=
  ⟨.jnum 1, "alice", .jnum (1 / 100), .jnum 13, .jnum 34234, .jnum 227⟩

/-- A second well-formed raw ranked participant. -/
def exRaw2 : RawYapper :=
  ⟨.jnum 2, "bob", .jnum (1 / 50), .jnum 7, .jnum 1000, .jnum 50⟩

/-- A structurally valid upstream payload with two ranked participants. -/
def exPayload : ApiResponse :=
  ⟨some ⟨.jnum 100, .jnum 500, .jnum 10000, .jnum 2000, some [exRaw1, exRaw2]⟩⟩

/-- The metrics extracted from `exPayload`. -/
def exMetrics : Metrics := ⟨.jnum 100, .jnum 500, .jnum 10000, .jnum 2000⟩

/-- First extracted participant of `exPayload`. -/
def exY1 : Yapper := convYapper exRaw1

/-- Second extracted participant of `exPayload`. -/
def exY2 : Yapper := convYapper exRaw2

/-- The outcome of saving two entries into an empty store when the second
entry insert fails (fault script `fun i => i == 1`, so k = 1 < N = 2 rows
succeed). -/
def c1Save : SaveOutcome :=
  saveSnapshot ⟨[], [], 0⟩ exMetrics [exY1, exY2] "7d" true "snap-1" 100
    false (fun i => i == 1)

/-- The store `c1Save` leaves behind: the header row together with the one
entry row whose insert succeeded. -/
def c1St : DBState :=
  ⟨[⟨"snap-1", 100, "7d", true, exMetrics, 0⟩], [⟨"snap-1", exY1, 1⟩], 2⟩

/-- Claim C1: `saveSnapshot` is claimed to be all-or-nothing — a failed
entry insert after k < N rows must leave no visible header and no visible
entry rows.  Evaluating the source at the failing input shows the opposite:
with the second of two entry inserts failing, the transaction is still
committed, the promise resolves successfully (even reporting
`yapperCount = 2`), and subsequent readers see the header (via
`getLatestSnapshot` and `getCompleteSnapshot`) plus exactly one entry row. -/
theorem c1_partial_commit_visible :
    c1Save = SaveOutcome.committed "snap-1" 100 2 c1St ∧
    getLatestSnapshot c1St "7d" = some ⟨"snap-1", 100, "7d", true, exMetrics, 0⟩ ∧
    getYapperCountForSnapshot c1St "snap-1" = 1 ∧
    getCompleteSnapshot c1St "snap-1" 250 0 =
      some (⟨"snap-1", 100, "7d", true, exMetrics, 0⟩, [⟨"snap-1", exY1, 1⟩]) := by
  refine ⟨rfl, rfl, rfl, rfl⟩

/-- The result of `getData` on a cache miss when the direct source times
out (the scenario of the claim, in which fallback sources would have
answered 503 and then success). -/
def c2Result : GetDataResult := getData "7d" [] 0 .timeout

/-- Claim C2: on primary failure `getData` is claimed to try the ordered
fallback sources and return the first structurally valid fallback payload
with `isLive = true`.  Evaluating the source: after the single direct fetch
fails, `getData` rejects with `All API endpoints failed` having issued
exactly one network attempt, although three fallback sources are configured
in `proxyUrls` — no fallback is ever contacted. -/
theorem c2_direct_failure_no_fallback :
    c2Result.result = Except.error "All API endpoints failed" ∧
    c2Result.fetchCount = 1 ∧
    c2Result.cache' = [] ∧
    proxyUrls.length = 3 := by
  refine ⟨rfl, rfl, rfl, rfl⟩

/-- Claim C7 (failing input): at Monday 01:00 (minute 1500 of the week) the
daily-cleanup cron `0 2 * * *` fires next at Monday 02:00 (minute 1560),
yet `getScheduleInfo` reports Tuesday 02:00 (minute 3000) — it always
reports tomorrow's 02:00, skipping a same-day fire.  The weekly half is
correct at this input: Wednesday 10:00 (minute 4920). -/
theorem c7_schedule_misreport :
    (getScheduleInfo 1500).2 = 3000 ∧
    cronCleanupMatches 1560 = true ∧ 1500 < 1560 ∧ 1560 < 3000 ∧
    claimNextCleanup 1500 = 1560 ∧
    (getScheduleInfo 1500).1 = 4920 ∧ claimNextWeekly 1500 = 4920 := by
  decide

/-- `claimNextCleanup` really is the earliest strictly-later instant at
which the daily cleanup cron of the source fires. -/
theorem claimNextCleanup_least (now : Nat) :
    now < claimNextCleanup now ∧
    cronCleanupMatches (claimNextCleanup now) = true ∧
    ∀ u, now < u → cronCleanupMatches u = true → claimNextCleanup now ≤ u := by
  unfold claimNextCleanup cronCleanupMatches minutesPerDay
  refine ⟨?_, ?_, ?_⟩
  · split <;> omega
  · split <;> simp <;> omega
  · intro u hu hc
    simp only [decide_eq_true_eq] at hc
    split <;> omega

/-- The weekly half of `getScheduleInfo` does report the earliest strictly
later Wednesday 10:00, for every current instant. -/
theorem getScheduleInfo_weekly_correct (now : Nat) :
    (getScheduleInfo now).1 = claimNextWeekly now := by
  unfold getScheduleInfo claimNextWeekly minutesPerWeek minutesPerDay
  simp only []
  split_ifs <;> omega

/-- One full collection run against an empty store in which the second of
the two entry inserts fails. -/
def c8Run : RunOutcome × DBState × Cache :=
  runWeeklyCollection [] 0 (.ok exPayload) ⟨[], [], 0⟩ "snap-8" 200
    false (fun i => i == 1)

/-- Claim C8 (failing input): a storage failure during a collection run —
the second entry insert fails — is claimed to yield a failure outcome and
leave no snapshot behind.  Evaluating the source: the run resolves as a
*success* (reporting 2 entries), and a partial snapshot is persisted — the
header is visible and exactly one of the two entry rows. -/
theorem c8_storage_failure_reported_success :
    c8Run.1 = RunOutcome.success "snap-8" 200 2 0 ∧
    c8Run.2.1.snapshots.map (fun r => r.snapshot_id) = ["snap-8"] ∧
    getYapperCountForSnapshot c8Run.2.1 "snap-8" = 1 := by
  refine ⟨rfl, rfl, rfl⟩

/-- Claim C10: `clearCache` empties the whole ephemeral cache — afterwards
every key misses, and the next `getData` for any window issues a network
attempt instead of answering from the cache. -/
theorem c10_clearCache_empties (c : Cache) (now : Nat) (key window : String)
    (o : FetchOutcome) :
    checkCache (clearCache c) now key = none ∧
    (getData window (clearCache c) now o).fetchCount = 1 := by
  refine ⟨rfl, ?_⟩
  cases o <;> rfl

/-- A freshly populated cache entry is a hit for its key while still
younger than the TTL. -/
theorem checkCache_setCache_hit (c : Cache) (t1 t2 : Nat) (key : String)
    (r : FetchResult) (h : t2 - t1 < cacheTTL) :
    checkCache (setCache c t1 key r) t2 key = some r := by
  unfold checkCache cacheLookup setCache
  rw [List.find?_cons_of_pos _ (by simp)]
  simp [h]

/-- Claim C3: after a first successful `getData` on a cache miss, a second
call for the same window issued less than the TTL later answers from the
cache — the same `(payload, isLive)` value, with no network fetch and an
unchanged cache. -/
theorem c3_cache_hit_within_ttl (window : String) (c : Cache) (t1 t2 : Nat)
    (p : ApiResponse) (o : FetchOutcome)
    (hmiss : checkCache c t1 ("data_" ++ window) = none)
    (httl : t2 - t1 < cacheTTL) :
    (getData window c t1 (.ok p)).result = Except.ok ⟨p, true⟩ ∧
    (getData window c t1 (.ok p)).fetchCount = 1 ∧
    (getData window (getData window c t1 (.ok p)).cache' t2 o).result =
      Except.ok ⟨p, true⟩ ∧
    (getData window (getData window c t1 (.ok p)).cache' t2 o).fetchCount = 0 ∧
    (getData window (getData window c t1 (.ok p)).cache' t2 o).cache' =
      (getData window c t1 (.ok p)).cache' := by
  have h1 : getData window c t1 (.ok p) =
      { result := .ok ⟨p, true⟩
        cache' := setCache c t1 ("data_" ++ window) ⟨p, true⟩
        fetchCount := 1 } := by
    unfold getData
    simp only []
    rw [hmiss]
  have h2 : getData window (setCache c t1 ("data_" ++ window) ⟨p, true⟩) t2 o =
      { result := .ok ⟨p, true⟩
        cache' := setCache c t1 ("data_" ++ window) ⟨p, true⟩
        fetchCount := 0 } := by
    unfold getData
    simp only []
    rw [checkCache_setCache_hit c t1 t2 ("data_" ++ window) ⟨p, true⟩ httl]
  rw [h1, h2]
  exact ⟨rfl, rfl, rfl, rfl, rfl⟩

/-- Claim C3 witness: a concrete miss at time 0 followed by a call at time
100 ms; the second call issues no fetch. -/
theorem c3_witness :
    (getData "7d" (getData "7d" [] 0 (.ok exPayload)).cache' 100 .timeout).fetchCount = 0 :=
  (c3_cache_hit_within_ttl "7d" [] 0 100 exPayload .timeout rfl (by decide)).2.2.2.1

/-- The row `ORDER BY created_at DESC LIMIT 1` selects is among the rows it
orders. -/
theorem maxByCreated_mem (r : SnapshotRow) (rs : List SnapshotRow) :
    maxByCreated r rs ∈ r :: rs := by
  induction rs generalizing r with
  | nil => simp [maxByCreated]
  | cons x xs ih =>
    have heq : maxByCreated r (x :: xs) =
        maxByCreated (if r.created_at < x.created_at then x else r) xs := rfl
    rw [heq]
    rcases List.mem_cons.mp (ih (if r.created_at < x.created_at then x else r)) with h1 | h1
    · rw [h1]
      by_cases hc : r.created_at < x.created_at <;> simp [hc]
    · simp [List.mem_cons, h1]

/-- The row `ORDER BY created_at DESC LIMIT 1` selects has a maximal
`created_at` among the rows it orders. -/
theorem maxByCreated_le (r : SnapshotRow) (rs : List SnapshotRow) :
    ∀ x ∈ r :: rs, x.created_at ≤ (maxByCreated r rs).created_at := by
  induction rs generalizing r with
  | nil =>
    intro x hx
    rw [List.mem_singleton.mp hx]
    simp [maxByCreated]
  | cons y ys ih =>
    intro x hx
    have heq : maxByCreated r (y :: ys) =
        maxByCreated (if r.created_at < y.created_at then y else r) ys := rfl
    rw [heq]
    have hhead : (if r.created_at < y.created_at then y else r).created_at ≤
        (maxByCreated (if r.created_at < y.created_at then y else r) ys).created_at :=
      ih _ _ (List.mem_cons_self _ _)
    rcases List.mem_cons.mp hx with h1 | h1
    · subst h1
      refine le_trans ?_ hhead
      by_cases hc : x.created_at < y.created_at <;> simp [hc] <;> omega
    · rcases List.mem_cons.mp h1 with h2 | h2
      · subst h2
        refine le_trans ?_ hhead
        by_cases hc : r.created_at < x.created_at <;> simp [hc] <;> omega
      · exact ih _ _ (List.mem_cons_of_mem _ h2)

/-- Claim C4 (amended): `getLatestSnapshot` returns `none` when the window
has no snapshot, and otherwise some stored snapshot of that window whose
`created_at` (write order) is maximal — the collection date plays no part
in the ordering. -/
theorem c4_latest_is_max_write (db : DBState) (w : String) :
    (windowSnapshots db w = [] → getLatestSnapshot db w = none) ∧
    (∀ r, getLatestSnapshot db w = some r →
      r ∈ windowSnapshots db w ∧
      ∀ x ∈ windowSnapshots db w, x.created_at ≤ r.created_at) := by
  constructor
  · intro h
    simp [getLatestSnapshot, h]
  · intro r hr
    unfold getLatestSnapshot at hr
    cases hws : windowSnapshots db w with
    | nil => rw [hws] at hr; cases hr
    | cons a as =>
      rw [hws] at hr
      have hmax : maxByCreated a as = r := by
        cases hr; rfl
      constructor
      · rw [← hmax]
        exact maxByCreated_mem a as
      · intro x hx
        rw [← hmax]
        exact maxByCreated_le a as x hx

/-- A store holding, for window `7d`, a row written first with the later
collection date and a row written second with the earlier collection date
(a backfill shape). -/
def c4RowA : SnapshotRow := ⟨"a", 5, "7d", true, exMetrics, 1⟩

/-- The later-written row with the earlier collection date. -/
def c4RowB : SnapshotRow := ⟨"b", 3, "7d", true, exMetrics, 2⟩

/-- The two-row store of the C4 counterexample. -/
def c4DB : DBState := ⟨[c4RowA, c4RowB], [], 3⟩

/-- Claim C4 counterexample: the claim orders by collection date first, so
it demands row `a` (date 5); the source's `ORDER BY created_at DESC`
returns row `b` (date 3, written later), whose collection date is *not*
maximal.  `specLatestSnapshot`, stated from the spec's ordering, picks `a`. -/
theorem c4_counterexample :
    getLatestSnapshot c4DB "7d" = some c4RowB ∧
    specLatestSnapshot c4DB "7d" = some c4RowA ∧
    c4RowA ∈ windowSnapshots c4DB "7d" ∧
    c4RowB.collection_date < c4RowA.collection_date := by
  refine ⟨rfl, rfl, by decide, by decide⟩

/-- Claim C4 witness: the amended theorem applied to the concrete backfill
store — the returned row `b` write-dominates row `a`. -/
theorem c4_witness : c4RowA.created_at ≤ c4RowB.created_at :=
  ((c4_latest_is_max_write c4DB "7d").2 c4RowB (by decide)).2 c4RowA (by decide)

/-- A raw participant whose `rank` and `mindshare` fields hold non-numeric
strings. -/
def c5Raw : RawYapper := ⟨.jstr "abc", "u", .jstr "xyz", .jnum 3, .jnum 4, .jnum 5⟩

/-- A structurally valid payload containing the malformed participant. -/
def c5Payload : ApiResponse :=
  ⟨some ⟨.jnum 100, .jnum 500, .jnum 10000, .jnum 2000, some [c5Raw]⟩⟩

/-- Claim C5 counterexample: the claim demands that a non-numeric numeric
field make the whole extraction fail with an error.  Evaluating the source
on a payload whose entry has `rank = "abc"` and `mindshare = "xyz"`:
`extractYappers` succeeds, producing an entry whose coerced fields are `NaN`
(`none`) — neither an error nor a zero substitute. -/
theorem c5_counterexample :
    extractYappers c5Payload 250 0 =
      Except.ok [{ rank := none, username := "u", mindshare := none,
                   tweets := some 3, impressions := some 4, likes := some 5,
                   twitterUrl := "https://twitter.com/u" }] := by
  rfl

/-- Claim C5 (amended): on a payload whose `community_mindshare` object is
present, extraction never fails — regardless of malformed numeric fields:
`extractMetrics` passes the four counter fields through unvalidated,
`extractYappers` always succeeds, an absent ranked list yields the empty
sequence, every produced entry is the JS coercion (`parseInt`/`parseFloat`)
of some raw participant, and a non-numeric field coerces to `NaN` (`none`),
never to zero. -/
theorem c5_extraction_total (p : ApiResponse) (d : CommunityMindshare)
    (limit offset : Nat) (h : p.community_mindshare = some d) :
    extractMetrics p = Except.ok ⟨d.total_unique_yappers, d.total_unique_tweets,
      d.top_250_yapper_impressions, d.top_250_yapper_likes⟩ ∧
    (∃ entries, extractYappers p limit offset = Except.ok entries) ∧
    (d.top_250_yappers = none → extractYappers p limit offset = Except.ok []) ∧
    (∀ entries, extractYappers p limit offset = Except.ok entries →
      ∀ e ∈ entries, ∃ y ∈ d.top_250_yappers.getD [], e = convYapper y) ∧
    (∀ y : RawYapper, parseIntJS y.rank = none →
      (convYapper y).rank = none ∧ (convYapper y).rank ≠ some 0) := by
  refine ⟨?_, ?_, ?_, ?_, ?_⟩
  · simp [extractMetrics, h]
  · exact ⟨(((d.top_250_yappers.getD []).drop offset).take limit).map convYapper,
      by simp only [extractYappers, h]⟩
  · intro h2
    simp [extractYappers, h, h2]
  · intro entries hes e he
    simp only [extractYappers, h, Except.ok.injEq] at hes
    subst hes
    rcases List.mem_map.mp he with ⟨y, hy, hconv⟩
    refine ⟨y, ?_, hconv.symm⟩
    have hsub : List.Sublist (((d.top_250_yappers.getD []).drop offset).take limit)
        (d.top_250_yappers.getD []) :=
      (List.take_sublist _ _).trans (List.drop_sublist _ _)
    exact hsub.subset hy
  · intro y hy
    constructor <;> simp [convYapper, hy]

/-- Claim C5 witness: on the concrete malformed payload, the amended
theorem's totality conjunct yields a successful extraction. -/
theorem c5_witness :
    ∃ entries, extractYappers c5Payload 250 0 = Except.ok entries :=
  (c5_extraction_total c5Payload _ 250 0 rfl).2.1

/-- Re-filtering by a predicate after keeping only its complement leaves
nothing. -/
theorem filter_not_filter {α : Type} (p : α → Bool) (l : List α) :
    (l.filter (fun a => !(p a))).filter p = [] := by
  induction l with
  | nil => rfl
  | cons x xs ih =>
    by_cases h : p x <;> simp [List.filter_cons, h, ih]

/-- A prune finding no snapshot older than the cutoff resolves `(0, 0)` at
once and touches nothing. -/
theorem cleanOldSnapshots_noop (db : DBState) (cutoff : Nat)
    (h : db.snapshots.filter (fun r => decide (r.collection_date < cutoff)) = []) :
    cleanOldSnapshots db cutoff = (db, 0, 0) := by
  simp [cleanOldSnapshots, h]

/-- Claim C6: `cleanOldSnapshots` run twice with the same cutoff deletes
zero snapshots and zero entries the second time and leaves the store of the
first run unchanged; and a call with no snapshot older than the cutoff is a
no-op returning `(0, 0)`. -/
theorem c6_prune_idempotent_noop (db : DBState) (cutoff : Nat) :
    cleanOldSnapshots (cleanOldSnapshots db cutoff).1 cutoff =
      ((cleanOldSnapshots db cutoff).1, 0, 0) ∧
    (db.snapshots.filter (fun r => decide (r.collection_date < cutoff)) = [] →
      cleanOldSnapshots db cutoff = (db, 0, 0)) := by
  constructor
  · by_cases hE : (db.snapshots.filter
        (fun r => decide (r.collection_date < cutoff))).isEmpty
    · have h0 : cleanOldSnapshots db cutoff = (db, 0, 0) :=
        cleanOldSnapshots_noop db cutoff (List.isEmpty_iff.mp hE)
      rw [h0]
      exact h0
    · have h1 : (cleanOldSnapshots db cutoff).1.snapshots =
          db.snapshots.filter (fun r => !(decide (r.collection_date < cutoff))) := by
        unfold cleanOldSnapshots
        simp only [hE, if_neg, Bool.false_eq_true, not_false_iff]
      refine cleanOldSnapshots_noop _ cutoff ?_
      rw [h1]
      exact filter_not_filter _ _
  · exact cleanOldSnapshots_noop db cutoff

/-- A store whose only snapshot is newer than the cutoff used by the C6
witness. -/
def c6DB : DBState := ⟨[⟨"s", 9, "7d", true, exMetrics, 1⟩], [], 2⟩

/-- Claim C6 witness: pruning the concrete store with cutoff 3 (its only
snapshot has collection date 9) is a no-op returning zeros. -/
theorem c6_witness : cleanOldSnapshots c6DB 3 = (c6DB, 0, 0) :=
  (c6_prune_idempotent_noop c6DB 3).2 (by decide)

/-- Claim C9: `validateParams` rejects a supplied `limit` that parses to
`NaN` or a non-positive number and a supplied `offset` that parses to `NaN`
or a negative number; on acceptance a supplied `limit` is capped at 250 and
a missing `offset` defaults to 0. -/
theorem c9_validateParams_spec (w l o : Option String) :
    (truthy l = true → parseIntString (l.getD "") = none →
      ∃ e, validateParams w l o = .error e) ∧
    (∀ n : Int, truthy l = true → parseIntString (l.getD "") = some n → n ≤ 0 →
      ∃ e, validateParams w l o = .error e) ∧
    (truthy o = true → parseIntString (o.getD "") = none →
      ∃ e, validateParams w l o = .error e) ∧
    (∀ n : Int, truthy o = true → parseIntString (o.getD "") = some n → n < 0 →
      ∃ e, validateParams w l o = .error e) ∧
    (∀ q, validateParams w l o = .ok q →
      (∀ n : Int, truthy l = true → parseIntString (l.getD "") = some n →
        q.limit = some (min n 250)) ∧
      (truthy o = false → q.offset = 0)) := by
  by_cases hw : truthy w ∧ (w.getD "") ∉ validWindows
  · have hv : validateParams w l o = .error "Periodo invalido" := by
      simp [validateParams, hw]
    refine ⟨fun _ _ => ⟨_, hv⟩, fun _ _ _ _ => ⟨_, hv⟩, fun _ _ => ⟨_, hv⟩,
      fun _ _ _ _ => ⟨_, hv⟩, fun q hq => ?_⟩
    rw [hv] at hq
    cases hq
  · refine ⟨?_, ?_, ?_, ?_, ?_⟩
    · intro hl hpl
      exact ⟨"Valor de limite invalido", by simp [validateParams, hw, hl, hpl]⟩
    · intro n hl hpl hn
      exact ⟨"Valor de limite invalido", by simp [validateParams, hw, hl, hpl, hn]⟩
    · intro ho hpo
      by_cases hl : truthy l = true
      · cases hpl : parseIntString (l.getD "") with
        | none => exact ⟨"Valor de limite invalido", by simp [validateParams, hw, hl, hpl]⟩
        | some n =>
          by_cases hn : n ≤ 0
          · exact ⟨"Valor de limite invalido", by simp [validateParams, hw, hl, hpl, hn]⟩
          · exact ⟨"Valor de offset invalido", by simp [validateParams, hw, hl, hpl, hn, ho, hpo]⟩
      · have hl' : truthy l = false := by
          cases hb : truthy l
          · rfl
          · exact absurd hb hl
        exact ⟨"Valor de offset invalido", by simp [validateParams, hw, hl', ho, hpo]⟩
    · intro n ho hpo hn
      by_cases hl : truthy l = true
      · cases hpl : parseIntString (l.getD "") with
        | none => exact ⟨"Valor de limite invalido", by simp [validateParams, hw, hl, hpl]⟩
        | some m =>
          by_cases hm : m ≤ 0
          · exact ⟨"Valor de limite invalido", by simp [validateParams, hw, hl, hpl, hm]⟩
          · exact ⟨"Valor de offset invalido", by simp [validateParams, hw, hl, hpl, hm, ho, hpo, hn]⟩
      · have hl' : truthy l = false := by
          cases hb : truthy l
          · rfl
          · exact absurd hb hl
        exact ⟨"Valor de offset invalido", by simp [validateParams, hw, hl', ho, hpo, hn]⟩
    · intro q hq
      by_cases hl : truthy l = true
      · cases hpl : parseIntString (l.getD "") with
        | none =>
          have hv : validateParams w l o = .error "Valor de limite invalido" := by
            simp [validateParams, hw, hl, hpl]
          rw [hv] at hq
          cases hq
        | some n =>
          by_cases hn : n ≤ 0
          · have hv : validateParams w l o = .error "Valor de limite invalido" := by
              simp [validateParams, hw, hl, hpl, hn]
            rw [hv] at hq
            cases hq
          · by_cases ho : truthy o = true
            · cases hpo : parseIntString (o.getD "") with
              | none =>
                have hv : validateParams w l o = .error "Valor de offset invalido" := by
                  simp [validateParams, hw, hl, hpl, hn, ho, hpo]
                rw [hv] at hq
                cases hq
              | some m =>
                by_cases hm : m < 0
                · have hv : validateParams w l o =
                      .error "Valor de offset invalido" := by
                    simp [validateParams, hw, hl, hpl, hn, ho, hpo, hm]
                  rw [hv] at hq
                  cases hq
                · have hv : validateParams w l o = .ok ⟨some (min n 250), m⟩ := by
                    simp [validateParams, hw, hl, hpl, hn, ho, hpo, hm]
                  rw [hv] at hq
                  injection hq with hq2
                  subst hq2
                  refine ⟨?_, ?_⟩
                  · intro n' _ hpl'
                    injection hpl' with hn'
                    subst hn'
                    rfl
                  · intro ho'
                    rw [ho'] at ho
                    cases ho
            · have ho' : truthy o = false := by
                cases hb : truthy o
                · rfl
                · exact absurd hb ho
              have hv : validateParams w l o = .ok ⟨some (min n 250), 0⟩ := by
                simp [validateParams, hw, hl, hpl, hn, ho']
              rw [hv] at hq
              injection hq with hq2
              subst hq2
              refine ⟨?_, fun _ => rfl⟩
              intro n' _ hpl'
              injection hpl' with hn'
              subst hn'
              rfl
      · have hl' : truthy l = false := by
          cases hb : truthy l
          · rfl
          · exact absurd hb hl
        refine ⟨fun n' hl2 _ => absurd hl2 (by rw [hl']; exact Bool.false_ne_true), ?_⟩
        intro ho'
        by_cases ho : truthy o = true
        · rw [ho'] at ho
          cases ho
        · have ho2 : truthy o = false := by
            cases hb : truthy o
            · rfl
            · exact absurd hb ho
          have hv : validateParams w l o = .ok ⟨none, 0⟩ := by
            simp [validateParams, hw, hl', ho2]
          rw [hv] at hq
          injection hq with hq2
          subst hq2
          rfl

/-- Claim C9 witness: the non-numeric limit string `abc` is rejected. -/
theorem c9_witness :
    ∃ e, validateParams none (some "abc") none = Except.error e :=
  (c9_validateParams_spec none (some "abc") none).1 rfl rfl

end TheoriqSpec
